import Mathlib

set_option maxRecDepth 100000

/-
Verification of the ndevio reader-selection and plugin-suggestion layer.

The definitions below are a shallow embedding of the Python sources:
  * `src/ndevio/_bioio_plugin_utils.py` (plugin registry, extension
    resolution, missing-plugin messages),
  * `src/ndevio/nimage.py` (reader resolution and fallback in
    `nImage.__init__`, `layer_scale` / `layer_units`, layer-tuple building),
  * `src/ndevio/_napari_reader.py` (`napari_get_reader`),
  * `src/ndevio/_plugin_manager.py` (`ReaderPluginManager`).

Python strings are modelled by `String`; the handful of `str` / `pathlib`
operations the code uses (`lower`, `split('.')`, `endswith`, `Path.name`,
`Path.suffix`, substring `in`) are re-implemented below over `List Char`
with Python semantics.  External collaborators (the bioio decoding
ecosystem, settings, napari) are modelled as explicit parameters.
-/

namespace Ndevio

/-! ### Python string primitives -/

/-- Python `str.lower()` for the ASCII strings used by the library
(`Char.toLower` lowercases exactly the ASCII uppercase range). -/
def pyLower (s : String) : String := ⟨s.data.map Char.toLower⟩

/-- Split a character list on a separator character, Python
`str.split(sep)` semantics: `"".split(".") = [""]`, separators at the
ends produce empty pieces. -/
def splitOnChar (sep : Char) : List Char → List (List Char)
  | [] => [[]]
  | c :: rest =>
    if c = sep then [] :: splitOnChar sep rest
    else
      match splitOnChar sep rest with
      | h :: t => (c :: h) :: t
      | [] => [[c]]

/-- Python `ext.split(".")`. -/
def splitDot (s : String) : List (List Char) := splitOnChar '.' s.data

/-- Python `s.endswith(suffix)`. -/
def pyEndswith (s suffix : String) : Bool := suffix.data.isSuffixOf s.data

/-- Python `s.startswith(p)`. -/
def pyStartswith (s p : String) : Bool := p.data.isPrefixOf s.data

/-- Python substring containment `needle in hay`. -/
def containsSub (needle : List Char) : List Char → Bool
  | [] => needle.isEmpty
  | c :: rest => needle.isPrefixOf (c :: rest) || containsSub needle rest

/-- Python `needle in hay` on strings. -/
def pyIn (needle hay : String) : Bool := containsSub needle.data hay.data

/-- `pathlib.Path(path).name`: the last non-empty slash-separated
component (models the plain relative file names the library handles). -/
def pathName (path : String) : String :=
  ⟨((splitOnChar '/' path.data).filter (fun comp => !comp.isEmpty)).getLastD []⟩

/-- `pathlib.Path(path).suffix` of a path: the final extension of the
last component.  CPython returns `name[i:]` for `i = name.rfind('.')`
when `0 < i < len(name) - 1`, else `''`; equivalently, the last
dot-separated piece when it is non-empty and the dot producing it is
neither the first nor the last character. -/
def pySuffix (path : String) : String :=
  let parts := splitDot (pathName path)
  if parts.length ≥ 2 ∧ parts.getLastD [] ≠ [] ∧ ¬(parts.length = 2 ∧ parts.headD [] = []) then
    ⟨'.' :: parts.getLastD []⟩
  else ""

/-! ### Plugin registry (`BIOIO_PLUGINS` in `_bioio_plugin_utils.py`) -/

/-- One entry of the `BIOIO_PLUGINS` dict: the dict key (`name`) together
with the info fields.  `suggest_plugins_for_path` returns copies of these
entries with the name attached, which this structure already carries. -/
structure PluginInfo where
  name : String
  extensions : List String
  description : String
  repository : String
  core : Bool
  note : Option String
deriving DecidableEq, Repr

def bioio_czi : PluginInfo :=
  ⟨"bioio-czi", [".czi"], "Zeiss CZI files",
   "https://github.com/bioio-devs/bioio-czi", false, none⟩

def bioio_dv : PluginInfo :=
  ⟨"bioio-dv", [".dv", ".r3d"], "DeltaVision files",
   "https://github.com/bioio-devs/bioio-dv", false, none⟩

def bioio_imageio : PluginInfo :=
  ⟨"bioio-imageio", [".bmp", ".gif", ".jpg", ".jpeg", ".png"],
   "Generic image formats (PNG, JPG, etc.)",
   "https://github.com/bioio-devs/bioio-imageio", true, none⟩

def bioio_lif : PluginInfo :=
  ⟨"bioio-lif", [".lif"], "Leica LIF files",
   "https://github.com/bioio-devs/bioio-lif", false, none⟩

def bioio_nd2 : PluginInfo :=
  ⟨"bioio-nd2", [".nd2"], "Nikon ND2 files",
   "https://github.com/bioio-devs/bioio-nd2", false, none⟩

def bioio_ome_tiff : PluginInfo :=
  ⟨"bioio-ome-tiff", [".ome.tif", ".ome.tiff", ".tif", ".tiff"],
   "OME-TIFF files with valid OME-XML metadata",
   "https://github.com/bioio-devs/bioio-ome-tiff", true, none⟩

def bioio_ome_tiled_tiff : PluginInfo :=
  ⟨"bioio-ome-tiled-tiff", [".tiles.ome.tif"], "Tiled OME-TIFF files",
   "https://github.com/bioio-devs/bioio-ome-tiled-tiff", false, none⟩

def bioio_ome_zarr : PluginInfo :=
  ⟨"bioio-ome-zarr", [".zarr"], "OME-Zarr files",
   "https://github.com/bioio-devs/bioio-ome-zarr", true, none⟩

def bioio_sldy : PluginInfo :=
  ⟨"bioio-sldy", [".sldy", ".dir"], "3i SlideBook files",
   "https://github.com/bioio-devs/bioio-sldy", false, none⟩

def bioio_tifffile : PluginInfo :=
  ⟨"bioio-tifffile", [".tif", ".tiff"],
   "TIFF files (including those without OME metadata)",
   "https://github.com/bioio-devs/bioio-tifffile", false, none⟩

def bioio_tiff_glob : PluginInfo :=
  ⟨"bioio-tiff-glob", [".tiff"], "TIFF sequences (glob patterns)",
   "https://github.com/bioio-devs/bioio-tiff-glob", false, none⟩

def bioio_bioformats : PluginInfo :=
  ⟨"bioio-bioformats", [".oib", ".oif", ".vsi", ".ims", ".lsm", ".stk"],
   "Proprietary microscopy formats (requires Java)",
   "https://github.com/bioio-devs/bioio-bioformats", false,
   some "Requires Java Runtime Environment"⟩

/-- The `BIOIO_PLUGINS` dict, in its (insertion-preserving) iteration
order. -/
def BIOIO_PLUGINS : List PluginInfo :=
  [bioio_czi, bioio_dv, bioio_imageio, bioio_lif, bioio_nd2,
   bioio_ome_tiff, bioio_ome_tiled_tiff, bioio_ome_zarr, bioio_sldy,
   bioio_tifffile, bioio_tiff_glob, bioio_bioformats]

/-! ### Extension resolution (`suggest_plugins_for_path`) -/

/-- The compound-extension test used by the first pass of
`suggest_plugins_for_path`:
`ext.startswith(".") and len(ext.split(".")) > 2`. -/
def isCompoundExt (ext : String) : Bool :=
  pyStartswith ext "." && decide ((splitDot ext).length > 2)

/-- Whether a plugin entry matches the lowercased filename in the
compound pass: some declared extension is compound and the filename ends
with it. -/
def compoundMatches (filename : String) (p : PluginInfo) : Bool :=
  p.extensions.any (fun ext => isCompoundExt ext && pyEndswith filename ext)

/-- `suggest_plugins_for_path(path)`.  First pass scans `BIOIO_PLUGINS`
in registry order and returns the first entry one of whose compound
extensions is a suffix of the lowercased filename, as a singleton.
Otherwise it falls back to the module-level `_EXTENSION_TO_PLUGIN` map,
which lists for each extension its owners in registry order — the same
as filtering the registry on declaring the path's (lowercased) final
suffix. -/
def suggest_plugins_for_path (path : String) : List PluginInfo :=
  let filename := pyLower (pathName path)
  match BIOIO_PLUGINS.find? (compoundMatches filename) with
  | some p => [p]
  | none =>
    let file_ext := pyLower (pySuffix path)
    BIOIO_PLUGINS.filter (fun p => p.extensions.contains file_ext)

/-! ### Missing-plugin messages (`get_missing_plugins_message`) -/

/-- A `bioio.plugin_feasibility_report` result: dict from plugin name to
a `PluginSupport` whose `supported` flag is the only field the code ever
reads.  Presence of a name means the plugin is installed. -/
abbrev FeasibilityReport := List (String × Bool)

/-- Python truthiness of the optional report (`None` and `{}` are falsy). -/
def reportTruthy : Option FeasibilityReport → Bool
  | none => false
  | some r => !r.isEmpty

/-- `_get_installed_plugins`: names present in the report, excluding
`"ArrayLike"`; the empty set for a falsy report. -/
def get_installed_plugins (feasibility_report : Option FeasibilityReport) : List String :=
  if reportTruthy feasibility_report then
    ((feasibility_report.getD []).map Prod.fst).filter (fun n => n ≠ "ArrayLike")
  else []

/-- `_filter_installed_plugins`: drop suggested plugins whose name occurs
in the report; with a falsy report return the suggestions unchanged. -/
def filter_installed_plugins (suggested_plugins : List PluginInfo)
    (feasibility_report : Option FeasibilityReport) : List PluginInfo :=
  if !reportTruthy feasibility_report then suggested_plugins
  else
    suggested_plugins.filter
      (fun p => !(get_installed_plugins feasibility_report).contains p.name)

/-- `", ".join(sorted(s))` over a Python set of names: sorted distinct
elements. -/
def sortedSet (l : List String) : List String :=
  l.dedup.insertionSort (· ≤ ·)

/-- `_format_plugin_list`: core plugins are dropped; each remaining
plugin contributes a bullet with description, optional note and a pip
install line; joined with newlines ("" when nothing remains). -/
def format_plugin_list (plugins : List PluginInfo) : String :=
  let non_core := plugins.filter (fun p => !p.core)
  if non_core.isEmpty then ""
  else
    String.intercalate "\n" (non_core.flatMap (fun p =>
      ["  • " ++ p.name, "    " ++ p.description] ++
      (match p.note with
       | some n => ["    Note: " ++ n]
       | none => []) ++
      ["    Install: pip install " ++ p.name ++ "\n"]))

/-- The `missing_plugins` value computed inside
`get_missing_plugins_message`: for a truthy report, the suggested
plugins whose names are absent from the report; otherwise all suggested
plugins. -/
def missing_plugins_of (path : String) (feasibility_report : Option FeasibilityReport) :
    List PluginInfo :=
  if reportTruthy feasibility_report then
    filter_installed_plugins (suggest_plugins_for_path path) feasibility_report
  else suggest_plugins_for_path path

/-- The early-return string of `get_missing_plugins_message` when no
plugin suggests the extension (apostrophes written `\x27`). -/
def no_plugins_message (path : String) : String :=
  "\n\nNo bioio plugins found for \x27" ++ pathName path ++ "\x27 (extension: " ++
    pySuffix path ++ ").\n" ++
    "See https://github.com/bioio-devs/bioio for available plugins."

/-- Case 1 string of `get_missing_plugins_message`: some plugin from the
report is installed (whether or not it is suggested for this file) and
non-core suggested plugins are missing — suggest alternatives. -/
def installed_failed_message (path : String) (installed_plugins : List String)
    (plugin_list : String) : String :=
  "\n\nInstalled plugin \x27" ++
    String.intercalate ", " (sortedSet installed_plugins) ++
    "\x27 failed to read \x27" ++ pathName path ++ "\x27.\n" ++
    "Try one of these alternatives:\n\n" ++ plugin_list ++
    "\nRestart napari/Python after installing."

/-- Case 2 string of `get_missing_plugins_message`: every suggested
plugin appears in the report — content/corruption framing. -/
def corrupt_file_message (path : String) (installed_plugins : List String) : String :=
  "\nFile \x27" ++ pathName path ++ "\x27 is supported by: " ++
    String.intercalate ", " (sortedSet installed_plugins) ++ "\n" ++
    "However, the plugin failed to read it.\n" ++
    "This may indicate a corrupt file or incompatible format variant."

/-- Case 3 string of `get_missing_plugins_message`: nothing from the
report installed — suggest installing the non-core candidates. -/
def install_one_of_message (path : String) (plugin_list : String) : String :=
  "\n\nTo read \x27" ++ pathName path ++ "\x27, install one of:\n\n" ++ plugin_list ++
    "\nRestart napari/Python after installing."

/-- Case 4 string of `get_missing_plugins_message`: only core candidates
remain — they should already be installed. -/
def should_be_installed_message (path : String) : String :=
  "\n\nRequired plugins for \x27" ++ pathName path ++
    "\x27 should already be installed.\n" ++
    "If you\x27re still having issues, check your installation or " ++
    "open an issue at https://github.com/ndev-kit/ndevio."

/-- `get_missing_plugins_message(path, feasibility_report)`: dispatch
between the exact strings the source builds (each named above, one per
`return` statement). -/
def get_missing_plugins_message (path : String)
    (feasibility_report : Option FeasibilityReport) : String :=
  let suggested_plugins := suggest_plugins_for_path path
  if suggested_plugins.isEmpty then
    no_plugins_message path
  else
    let installed_plugins := get_installed_plugins feasibility_report
    let missing_plugins := missing_plugins_of path feasibility_report
    let plugin_list := format_plugin_list missing_plugins
    if !installed_plugins.isEmpty && !missing_plugins.isEmpty && plugin_list != "" then
      installed_failed_message path installed_plugins plugin_list
    else if !installed_plugins.isEmpty && missing_plugins.isEmpty then
      corrupt_file_message path installed_plugins
    else if plugin_list != "" then
      install_one_of_message path plugin_list
    else
      should_be_installed_message path

/-! ### Reader resolution and fallback (`nImage.__init__`) -/

/-- Outcome kinds of a `BioImage.__init__` attempt: the ecosystem either
opens the image, raises `UnsupportedFileFormatError`, or raises some
other exception (which `nImage.__init__` does not catch). -/
inductive EcoErr
  | unsupported
  | other
deriving DecidableEq, Repr

/-- What `nImage.__init__` lets escape: an ecosystem exception re-raised
unchanged, or the fresh `UnsupportedFileFormatError(reader_name='ndevio',
msg_extra=...)` raised by `_raise_with_suggestions` (which replaces the
original via `raise ... from None`). -/
inductive NErr
  | eco (e : EcoErr)
  | enriched (msg_extra : Option String)
deriving DecidableEq, Repr

/-- `_resolve_reader(image, explicit_reader)`: explicit reader wins; a
preferred reader from settings (already `None` unless installed, per
`_get_preferred_reader_for_path`) applies only to path inputs. -/
def resolve_reader {ρ : Type} (explicit_reader : Option ρ) (is_path : Bool)
    (preferred : Option ρ) : Option ρ :=
  match explicit_reader with
  | some r => some r
  | none => if is_path then preferred else none

/-- `_raise_with_suggestions`: the error it raises carries the manager
installation message exactly when the `suggest_reader_plugins` setting is
on. -/
def raise_with_suggestions (suggest_reader_plugins : Bool)
    (installation_message : String) : NErr :=
  NErr.enriched (if suggest_reader_plugins then some installation_message else none)

/-- The try/except structure of `nImage.__init__` after reader
resolution.  `openImage r` models `BioImage.__init__(image, reader=r)`
for this image; only `UnsupportedFileFormatError` is caught, and a
forced-reader failure falls back once to `reader=None`. -/
def nImage_init {ρ ι : Type} (is_path suggest_reader_plugins : Bool)
    (installation_message : String) (resolved_reader : Option ρ)
    (openImage : Option ρ → Except EcoErr ι) : Except NErr ι :=
  match resolved_reader with
  | some r =>
    match openImage (some r) with
    | .ok img => .ok img
    | .error .unsupported =>
      match openImage none with
      | .ok img => .ok img
      | .error .unsupported =>
        if is_path then
          .error (raise_with_suggestions suggest_reader_plugins installation_message)
        else .error (.eco .unsupported)
      | .error .other => .error (.eco .other)
    | .error .other => .error (.eco .other)
  | none =>
    match openImage none with
    | .ok img => .ok img
    | .error .unsupported =>
      if is_path then
        .error (raise_with_suggestions suggest_reader_plugins installation_message)
      else .error (.eco .unsupported)
    | .error .other => .error (.eco .other)

/-- Model of the bioio open primitive for one fixed image: a forced
reader is tried alone; `reader=None` tries the installed readers in the
ecosystem's own deterministic order and succeeds on the first reader
that can open the image. -/
def ecoOpen {ρ ι : Type} (installed : List ρ) (canOpen : ρ → Option ι) :
    Option ρ → Except EcoErr ι
  | some r =>
    match canOpen r with
    | some img => .ok img
    | none => .error .unsupported
  | none =>
    match installed.findSome? canOpen with
    | some img => .ok img
    | none => .error .unsupported

/-! ### Scale and unit metadata (`layer_scale` / `layer_units`) -/

/-- The recognized metadata parse-failure kinds named by the spec:
`AttributeError`, `KeyError`, `TypeError`. -/
inductive MetaErr
  | attributeError
  | keyError
  | typeError
deriving DecidableEq, Repr

/-- `nImage.layer_scale`.  Accessing `self.scale` may raise
(`bioio_ome_zarr` raises `KeyError` on v0.1/v0.2 stores; array-like
inputs raise `AttributeError`); the property catches only
`AttributeError` and then returns all-1.0.  On success,
`getattr(bio_scale, dim, None) or 1.0` turns a missing or falsy (`None`
or `0.0`) per-axis value into `1.0`.  Values are modelled as rationals. -/
def layer_scale (axis_labels : List String)
    (scale_attr : Except MetaErr (String → Option ℚ)) : Except MetaErr (List ℚ) :=
  match scale_attr with
  | .error .attributeError => .ok (axis_labels.map (fun _ => 1))
  | .error e => .error e
  | .ok bio_scale =>
    .ok (axis_labels.map (fun dim =>
      match bio_scale dim with
      | some v => if v = 0 then 1 else v
      | none => 1))

/-- `nImage.layer_units`.  Accessing `self.dimension_properties` may
raise; only `AttributeError` is caught (all-`None` units).  Per axis,
`getattr(dim_props, dim, None)` yields an optional property whose
optional `unit` field is taken (`None` when the property is absent). -/
def layer_units (axis_labels : List String)
    (dimension_properties : Except MetaErr (String → Option (Option String))) :
    Except MetaErr (List (Option String)) :=
  match dimension_properties with
  | .error .attributeError => .ok (axis_labels.map (fun _ => none))
  | .error e => .error e
  | .ok dim_props =>
    .ok (axis_labels.map (fun dim =>
      match dim_props dim with
      | some prop => prop
      | none => none))

/-! ### Layer shaping (`_build_single_layer_tuple`, `_build_multichannel_tuples`) -/

/-- `LABEL_KEYWORDS` (a frozenset; listed here in source order). -/
def LABEL_KEYWORDS : List String := ["label", "mask", "segmentation", "seg", "roi"]

/-- `_infer_layer_type`: "labels" when some keyword is a substring of the
lowercased channel name, else "image". -/
def infer_layer_type (channel_name : String) : String :=
  if LABEL_KEYWORDS.any (fun kw => pyIn kw (pyLower channel_name)) then "labels"
  else "image"

/-- `_resolve_layer_type`: global override > per-channel override >
keyword auto-detection.  `channel_types` models the optional dict as a
lookup (an empty/falsy dict behaves as the always-`none` lookup). -/
def resolve_layer_type (channel_name : String) (layer_type_override : Option String)
    (channel_types : Option (String → Option String)) : String :=
  match layer_type_override with
  | some t => t
  | none =>
    match channel_types with
    | some types =>
      match types channel_name with
      | some t => t
      | none => infer_layer_type channel_name
    | none => infer_layer_type channel_name

/-- Values stored in a layer-metadata dict. `baseMeta` stands for the
opaque base-metadata mapping (`bioimage`, raw metadata, ...). -/
inductive MetaVal
  | str (v : String)
  | scaleVal (v : List ℚ)
  | axes (v : List String)
  | unitsVal (v : List (Option String))
  | boolVal (v : Bool)
  | baseMeta
deriving DecidableEq, Repr

/-- A metadata dict: insertion-ordered key/value pairs. -/
abbrev MetaDict := List (String × MetaVal)

/-- Python `dict.update`: existing keys are overwritten in place, new
keys appended in update order. -/
def dictUpdate (d upd : MetaDict) : MetaDict :=
  (d.map (fun kv =>
    match upd.find? (fun u => u.1 == kv.1) with
    | some u => (kv.1, u.2)
    | none => kv)) ++
  upd.filter (fun u => !(d.any (fun kv => kv.1 == u.1)))

/-- Key presence in a metadata dict. -/
def hasKey (d : MetaDict) (k : String) : Bool :=
  d.any (fun kv => kv.1 == k)

/-- Value lookup in a metadata dict. -/
def lookupKey (d : MetaDict) (k : String) : Option MetaVal :=
  (d.find? (fun kv => kv.1 == k)).map Prod.snd

/-- `nImage._build_single_layer_tuple`.  Instance state that the method
reads (`self._build_layer_name`, the external
`get_colormap_for_channel`) enters as function parameters; the base
metadata dict is the opaque `baseMeta`.  `units` enters the dict only
when truthy (non-empty); RGB sets `rgb=True` instead of
colormap/blending; colormap/blending are added only for non-RGB
"image"-typed layers, with additive blending for channel index > 0 when
there are several channels; per-channel kwargs are applied last as a
dict update. -/
def build_single_layer_tuple {δ : Type}
    (build_layer_name : Option String → String)
    (get_colormap_for_channel : Nat → Nat → String)
    (data : δ) (layer_type : String)
    (scale : List ℚ) (axis_labels : List String) (units : List (Option String))
    (channel_name : Option String) (channel_idx : Nat) (total_channels : Nat)
    (channel_kwargs : Option (String → Option MetaDict))
    (rgb : Bool) : δ × MetaDict × String :=
  let meta0 : MetaDict :=
    [("name", MetaVal.str (build_layer_name channel_name)),
     ("metadata", MetaVal.baseMeta),
     ("scale", MetaVal.scaleVal scale),
     ("axis_labels", MetaVal.axes axis_labels)]
  let meta1 := if units.isEmpty then meta0 else meta0 ++ [("units", MetaVal.unitsVal units)]
  let meta2 :=
    if rgb then meta1 ++ [("rgb", MetaVal.boolVal true)]
    else if layer_type = "image" then
      meta1 ++
        [("colormap", MetaVal.str (get_colormap_for_channel channel_idx total_channels)),
         ("blending", MetaVal.str
           (if channel_idx > 0 ∧ total_channels > 1 then "additive"
            else "translucent_no_depth"))]
    else meta1
  let meta3 :=
    match channel_kwargs, channel_name with
    | some kwargs, some cname =>
      match kwargs cname with
      | some upd => dictUpdate meta2 upd
      | none => meta2
    | _, _ => meta2
  (data, meta3, layer_type)

/-- `nImage._build_multichannel_tuples`: one tuple per channel index
`i < total_channels`; the channel name defaults to `channel_{i}` past the
coordinate list; slicing along the channel axis is `sliceAt i`; `rgb` is
never set on this path. -/
def build_multichannel_tuples {δ : Type}
    (build_layer_name : Option String → String)
    (get_colormap_for_channel : Nat → Nat → String)
    (channel_names : List String) (total_channels : Nat)
    (sliceAt : Nat → δ)
    (layer_type : Option String) (channel_types : Option (String → Option String))
    (channel_kwargs : Option (String → Option MetaDict))
    (scale : List ℚ) (axis_labels : List String) (units : List (Option String)) :
    List (δ × MetaDict × String) :=
  (List.range total_channels).map (fun i =>
    let channel_name := channel_names.getD i ("channel_" ++ toString i)
    let effective_type := resolve_layer_type channel_name layer_type channel_types
    build_single_layer_tuple build_layer_name get_colormap_for_channel (sliceAt i)
      effective_type scale axis_labels units (some channel_name) i total_channels
      channel_kwargs false)

/-! ### `napari_get_reader` (`_napari_reader.py`) -/

/-- A napari path argument: a single path or a list of paths. -/
inductive PathArg
  | single (p : String)
  | listOfPaths (ps : List String)
deriving DecidableEq, Repr

/-- The data `partial(napari_reader_function, ...)` closes over — what
`napari_get_reader` returns in the success case. -/
structure ReaderFunctionArgs where
  in_memory : Option Bool
  open_first_scene_only : Bool
  open_all_scenes : Bool
deriving DecidableEq, Repr

/-- `napari_get_reader`.  Scene-handling flags default from the settings
value; a list input yields `None`; a single path yields `None` exactly
when no bioio plugin is suggested for it, else the reader closure. -/
def napari_get_reader (path : PathArg) (in_memory : Option Bool)
    (open_first_scene_only open_all_scenes : Option Bool)
    (scene_handling_setting : String) : Option ReaderFunctionArgs :=
  let ofso := open_first_scene_only.getD (scene_handling_setting == "View First Scene Only")
  let oas := open_all_scenes.getD (scene_handling_setting == "View All Scenes")
  match path with
  | .listOfPaths _ => none
  | .single p =>
    if (suggest_plugins_for_path p).isEmpty then none
    else some ⟨in_memory, ofso, oas⟩

/-! ### `ReaderPluginManager` (`_plugin_manager.py`) -/

/-- `ReaderPluginManager`: only the optional path is instance state; the
live ecosystem (`bioio.plugin_feasibility_report`, reader import,
`BioImage.determine_plugin`, the message formatter absent from this
module) enters each method as an explicit parameter. -/
structure ReaderPluginManager where
  path : Option String
deriving DecidableEq, Repr

namespace ReaderPluginManager

/-- `known_plugins`: all registry names in order. -/
def known_plugins (_m : ReaderPluginManager) : List String :=
  BIOIO_PLUGINS.map PluginInfo.name

/-- `feasibility_report` (cached property): empty without a path, else
the ecosystem report for the path. -/
def feasibility_report (m : ReaderPluginManager)
    (plugin_feasibility_report : String → FeasibilityReport) : FeasibilityReport :=
  match m.path with
  | none => []
  | some p => plugin_feasibility_report p

/-- `installed_plugins`: report names minus `"ArrayLike"`. -/
def installed_plugins (m : ReaderPluginManager)
    (plugin_feasibility_report : String → FeasibilityReport) : List String :=
  ((feasibility_report m plugin_feasibility_report).map Prod.fst).filter
    (fun n => n ≠ "ArrayLike")

/-- `suggested_plugins`: `[]` without a path, else
`suggest_plugins_for_path` (which in this revision returns full info
dicts). -/
def suggested_plugins (m : ReaderPluginManager) : List PluginInfo :=
  match m.path with
  | none => []
  | some p => suggest_plugins_for_path p

/-- `installable_plugins`.  The comprehension filters `suggested_plugins`
with `BIOIO_PLUGINS.get(plugin_name, {})` — but in this revision the
elements are info dicts, not names, so on CPython any non-empty
suggestion list raises `TypeError: unhashable type` at the first lookup;
the empty list is the only value the body can produce.  The embedding
makes that latent failure explicit. -/
def installable_plugins (m : ReaderPluginManager)
    (plugin_feasibility_report : String → FeasibilityReport) :
    Except String (List PluginInfo) :=
  match m.path, suggested_plugins m, installed_plugins m plugin_feasibility_report with
  | _, [], _ => .ok []
  | _, _ :: _, _ => .error "TypeError: unhashable type: \x27dict\x27"

/-- `get_priority_list(preferred_reader)`: the preferred reader first
when installed and importable, then the remaining installed registry
plugins in order.  `get_reader_by_name` (absent from this module's
sources) is the external name-to-class import, `none` on ImportError. -/
def get_priority_list {ρ : Type} (m : ReaderPluginManager)
    (plugin_feasibility_report : String → FeasibilityReport)
    (get_reader_by_name : String → Option ρ)
    (preferred_reader : Option String) : List ρ :=
  let installed := installed_plugins m plugin_feasibility_report
  let pref :=
    match preferred_reader with
    | some pr =>
      if installed.contains pr then
        match get_reader_by_name pr with
        | some r => [r]
        | none => []
      else []
    | none => []
  pref ++ (known_plugins m).filterMap (fun n =>
    if installed.contains n ∧ preferred_reader ≠ some n then get_reader_by_name n
    else none)

/-- `get_reader(preferred_reader)`: `None` without a path or with an
empty priority list; otherwise `BioImage.determine_plugin` (modelled as
an oracle returning `none` on any exception) decides. -/
def get_reader {ρ : Type} (m : ReaderPluginManager)
    (plugin_feasibility_report : String → FeasibilityReport)
    (get_reader_by_name : String → Option ρ)
    (determine_plugin : String → List ρ → Option ρ)
    (preferred_reader : Option String) : Option ρ :=
  match m.path with
  | none => none
  | some p =>
    let priority_list :=
      get_priority_list m plugin_feasibility_report get_reader_by_name preferred_reader
    if priority_list.isEmpty then none
    else determine_plugin p priority_list

/-- `get_installation_message`: `""` without a path, else the external
`format_plugin_installation_message` (absent from this module's sources,
modelled as an opaque formatter parameter) applied to the manager's
derived values. -/
def get_installation_message (m : ReaderPluginManager)
    (plugin_feasibility_report : String → FeasibilityReport)
    (fmt : String → List PluginInfo → List String → Except String (List PluginInfo) → String) :
    String :=
  match m.path with
  | none => ""
  | some p =>
    fmt (pathName p) (suggested_plugins m)
      (installed_plugins m plugin_feasibility_report)
      (installable_plugins m plugin_feasibility_report)

end ReaderPluginManager

/-! ## Theorems -/

/-- Helper: a list with some element satisfying `p` has a `find?` hit,
itself satisfying `p`. -/
theorem find?_some_of_exists {α : Type} (p : α → Bool) (l : List α)
    (h : ∃ x ∈ l, p x = true) :
    ∃ y ∈ l, l.find? p = some y ∧ p y = true := by
  induction l with
  | nil =>
    obtain ⟨x, hx, _⟩ := h
    exact absurd hx (List.not_mem_nil x)
  | cons a t ih =>
    by_cases ha : p a = true
    · exact ⟨a, List.mem_cons_self a t, List.find?_cons_of_pos t ha, ha⟩
    · obtain ⟨x, hx, hpx⟩ := h
      rcases List.mem_cons.mp hx with rfl | hxt
      · exact absurd hpx ha
      · obtain ⟨y, hyt, hfind, hpy⟩ := ih ⟨x, hxt, hpx⟩
        refine ⟨y, List.mem_cons_of_mem a hyt, ?_, hpy⟩
        rw [List.find?_cons_of_neg t (by simpa using ha)]
        exact hfind

/-- C1 (amended): whenever the lowercased filename ends in some
registered compound extension, `suggest_plugins_for_path` returns a
single registry plugin that itself owns a compound extension matching
the filename — so a plugin registered only for generic single-segment
suffixes is never returned; but the winner is the first compound match
in registry order, not the owner of the longest match: the compound
`.ome.tif` of `bioio-ome-tiff` precedes `.tiles.ome.tif`, so
`name.tiles.ome.tif` resolves to `bioio-ome-tiff`, not to
`bioio-ome-tiled-tiff`. -/
theorem c1_compound_extension_precedence :
    (∀ path : String,
        (∃ p ∈ BIOIO_PLUGINS, compoundMatches (pyLower (pathName path)) p = true) →
        ∃ p ∈ BIOIO_PLUGINS,
          suggest_plugins_for_path path = [p] ∧
            ∃ ext ∈ p.extensions, isCompoundExt ext = true ∧
              pyEndswith (pyLower (pathName path)) ext = true) ∧
      (suggest_plugins_for_path "name.tiles.ome.tif").map PluginInfo.name =
        ["bioio-ome-tiff"] := by
  constructor
  · intro path hex
    obtain ⟨y, hy, hfind, hpy⟩ := find?_some_of_exists _ _ hex
    refine ⟨y, hy, ?_, ?_⟩
    · simp only [suggest_plugins_for_path, hfind]
    · obtain ⟨ext, hext, hc⟩ := List.any_eq_true.mp hpy
      exact ⟨ext, hext, (Bool.and_eq_true _ _).mp hc |>.1,
        (Bool.and_eq_true _ _).mp hc |>.2⟩
  · decide

/-- Witness for C1 at the concrete path `name.tiles.ome.tif`. -/
theorem c1_witness :
    ∃ p ∈ BIOIO_PLUGINS,
      suggest_plugins_for_path "name.tiles.ome.tif" = [p] ∧
        ∃ ext ∈ p.extensions, isCompoundExt ext = true ∧
          pyEndswith (pyLower (pathName "name.tiles.ome.tif")) ext = true :=
  c1_compound_extension_precedence.1 "name.tiles.ome.tif"
    ⟨bioio_ome_tiled_tiff, by decide, by decide⟩

/-- C1 counterexample: `name.tiles.ome.tif` ends in the registered
compound extension `.tiles.ome.tif`, yet its owner
`bioio-ome-tiled-tiff` is not among the returned plugins — the claim
"resolves to the plugin registered for `.tiles.ome.tif` only" fails. -/
theorem c1_counterexample :
    bioio_ome_tiled_tiff ∈ BIOIO_PLUGINS ∧
      ".tiles.ome.tif" ∈ bioio_ome_tiled_tiff.extensions ∧
      isCompoundExt ".tiles.ome.tif" = true ∧
      pyEndswith (pyLower (pathName "name.tiles.ome.tif")) ".tiles.ome.tif" = true ∧
      "bioio-ome-tiled-tiff" ∉
        (suggest_plugins_for_path "name.tiles.ome.tif").map PluginInfo.name := by
  decide

/-- C4 (amended): for every registered extension except
`.tiles.ome.tif`, a filename ending in exactly that extension resolves
to a list containing the owning plugin; `.tiles.ome.tif` is shadowed by
the earlier-registered compound `.ome.tif`, so a file ending in it
resolves to `[bioio-ome-tiff]` instead. -/
theorem c4_registered_extension_owner :
    (∀ p ∈ BIOIO_PLUGINS, ∀ ext ∈ p.extensions, ext ≠ ".tiles.ome.tif" →
        p.name ∈ (suggest_plugins_for_path ("file" ++ ext)).map PluginInfo.name) ∧
      (suggest_plugins_for_path ("file" ++ ".tiles.ome.tif")).map PluginInfo.name =
        ["bioio-ome-tiff"] := by
  decide

/-- Witness for C4 at the registry entry `bioio-czi` / `.czi`. -/
theorem c4_witness :
    "bioio-czi" ∈ (suggest_plugins_for_path ("file" ++ ".czi")).map PluginInfo.name :=
  c4_registered_extension_owner.1 bioio_czi (by decide) ".czi" (by decide) (by decide)

/-- C4 counterexample: `.tiles.ome.tif` is registered (by
`bioio-ome-tiled-tiff`), yet a filename ending in exactly that extension
does not return its owner. -/
theorem c4_counterexample :
    bioio_ome_tiled_tiff ∈ BIOIO_PLUGINS ∧
      ".tiles.ome.tif" ∈ bioio_ome_tiled_tiff.extensions ∧
      "bioio-ome-tiled-tiff" ∉
        (suggest_plugins_for_path "file.tiles.ome.tif").map PluginInfo.name := by
  decide

/-- C5 (amended): with the shipped registry, `.ome.tiff` *is* itself a
registered compound (three-segment) extension of `bioio-ome-tiff`, so
`sample.ome.tiff` resolves through the compound branch to
`[bioio-ome-tiff]` alone (not to the full simple-suffix TIFF set); and
`stack.tiles.ome.tif` also resolves to `[bioio-ome-tiff]`, via its
compound `.ome.tif` which precedes `.tiles.ome.tif` in registry order. -/
theorem c5_shipped_registry_scenarios :
    ".ome.tiff" ∈ bioio_ome_tiff.extensions ∧
      isCompoundExt ".ome.tiff" = true ∧
      (suggest_plugins_for_path "sample.ome.tiff").map PluginInfo.name =
        ["bioio-ome-tiff"] ∧
      (suggest_plugins_for_path "stack.tiles.ome.tif").map PluginInfo.name =
        ["bioio-ome-tiff"] := by
  decide

/-- Helper: mapping a function over a list preserves emptiness. -/
theorem isEmpty_map' {α β : Type} (f : α → β) (l : List α) :
    (l.map f).isEmpty = l.isEmpty := by
  cases l <;> rfl

/-- Helper: `_get_installed_plugins` reads only the report's names. -/
theorem get_installed_plugins_names_only (r₁ r₂ : FeasibilityReport)
    (h : r₁.map Prod.fst = r₂.map Prod.fst) :
    get_installed_plugins (some r₁) = get_installed_plugins (some r₂) := by
  have hemp : r₁.isEmpty = r₂.isEmpty := by
    have := congrArg List.isEmpty h
    simpa [isEmpty_map'] using this
  simp only [get_installed_plugins, reportTruthy, Option.getD_some, hemp, h]

/-- C2 (amended): `get_missing_plugins_message` never reads the
`supported` flags of the feasibility report — the message depends only
on which plugin names appear — and its branches are keyed on report
names (every report name except "ArrayLike" counts as installed,
whether or not that plugin is suggested for this file) and on the
suggested-minus-report remainder: (0) no suggested plugins → the
"no plugins found" string; (1) report names present and suggested
plugins missing, some missing one non-core → the "installed plugin
failed, try one of these alternatives" string, naming the report
plugins; (2) report names present and no suggested plugin missing →
the content/corruption string; (3) no report name and a non-core
missing plugin → the "install one of" string; (4) otherwise (no
non-core missing plugin and not case 2) → the "should already be
installed" string. -/
theorem c2_message_branches_on_installation_not_capability :
    (∀ (path : String) (r₁ r₂ : FeasibilityReport),
        r₁.map Prod.fst = r₂.map Prod.fst →
        get_missing_plugins_message path (some r₁) =
          get_missing_plugins_message path (some r₂)) ∧
      (∀ (path : String) (r : Option FeasibilityReport),
        (suggest_plugins_for_path path = [] →
          get_missing_plugins_message path r = no_plugins_message path) ∧
          (suggest_plugins_for_path path ≠ [] →
            get_installed_plugins r ≠ [] →
            missing_plugins_of path r ≠ [] →
            format_plugin_list (missing_plugins_of path r) ≠ "" →
            get_missing_plugins_message path r =
              installed_failed_message path (get_installed_plugins r)
                (format_plugin_list (missing_plugins_of path r))) ∧
          (suggest_plugins_for_path path ≠ [] →
            get_installed_plugins r ≠ [] →
            missing_plugins_of path r = [] →
            get_missing_plugins_message path r =
              corrupt_file_message path (get_installed_plugins r)) ∧
          (suggest_plugins_for_path path ≠ [] →
            get_installed_plugins r = [] →
            format_plugin_list (missing_plugins_of path r) ≠ "" →
            get_missing_plugins_message path r =
              install_one_of_message path
                (format_plugin_list (missing_plugins_of path r))) ∧
          (suggest_plugins_for_path path ≠ [] →
            format_plugin_list (missing_plugins_of path r) = "" →
            (get_installed_plugins r = [] ∨ missing_plugins_of path r ≠ []) →
            get_missing_plugins_message path r = should_be_installed_message path)) ∧
      pyIn "Installed plugin \x27bioio-czi\x27 failed"
        (get_missing_plugins_message "test.tiff" (some [("bioio-czi", true)])) = true ∧
      pyIn "Try one of these alternatives"
        (get_missing_plugins_message "test.tiff" (some [("bioio-czi", true)])) = true := by
  refine ⟨?_, ?_, by decide, by decide⟩
  · intro path r₁ r₂ h
    have hemp : r₁.isEmpty = r₂.isEmpty := by
      have := congrArg List.isEmpty h
      simpa [isEmpty_map'] using this
    have htruthy : reportTruthy (some r₁) = reportTruthy (some r₂) := by
      simp [reportTruthy, hemp]
    have hinst := get_installed_plugins_names_only r₁ r₂ h
    have hfilt : ∀ s, filter_installed_plugins s (some r₁) =
        filter_installed_plugins s (some r₂) := by
      intro s
      simp only [filter_installed_plugins, htruthy, hinst]
    have hmiss : missing_plugins_of path (some r₁) = missing_plugins_of path (some r₂) := by
      simp only [missing_plugins_of, htruthy, hfilt]
    simp only [get_missing_plugins_message, hinst, hmiss]
  · intro path r
    refine ⟨?_, ?_, ?_, ?_, ?_⟩
    · intro h0
      simp [get_missing_plugins_message, h0]
    · intro h0 h1 h2 h3
      have hs : (suggest_plugins_for_path path).isEmpty = false := by
        simpa [List.isEmpty_iff] using h0
      have hi : (get_installed_plugins r).isEmpty = false := by
        simpa [List.isEmpty_iff] using h1
      have hm : (missing_plugins_of path r).isEmpty = false := by
        simpa [List.isEmpty_iff] using h2
      have hp : (format_plugin_list (missing_plugins_of path r) != "") = true := by
        simpa [bne_iff_ne] using h3
      simp [get_missing_plugins_message, hs, hi, hm, hp]
    · intro h0 h1 h2
      have hs : (suggest_plugins_for_path path).isEmpty = false := by
        simpa [List.isEmpty_iff] using h0
      have hi : (get_installed_plugins r).isEmpty = false := by
        simpa [List.isEmpty_iff] using h1
      have hm : (missing_plugins_of path r).isEmpty = true := by
        simp [List.isEmpty_iff, h2]
      simp [get_missing_plugins_message, hs, hi, hm]
    · intro h0 h1 h2
      have hs : (suggest_plugins_for_path path).isEmpty = false := by
        simpa [List.isEmpty_iff] using h0
      have hi : (get_installed_plugins r).isEmpty = true := by
        simp [List.isEmpty_iff, h1]
      have hp : (format_plugin_list (missing_plugins_of path r) != "") = true := by
        simpa [bne_iff_ne] using h2
      simp [get_missing_plugins_message, hs, hi, hp]
    · intro h0 hp0 hd
      have hs : (suggest_plugins_for_path path).isEmpty = false := by
        simpa [List.isEmpty_iff] using h0
      have hp : (format_plugin_list (missing_plugins_of path r) != "") = false := by
        simp [hp0]
      rcases hd with hi0 | hm0
      · have hi : (get_installed_plugins r).isEmpty = true := by
          simp [List.isEmpty_iff, hi0]
        simp [get_missing_plugins_message, hs, hi, hp]
      · have hm : (missing_plugins_of path r).isEmpty = false := by
          simpa [List.isEmpty_iff] using hm0
        simp [get_missing_plugins_message, hs, hm, hp]

/-- Witness for C2: flipping the supported flag of an installed plugin
leaves the generated message unchanged, and the report name `bioio-czi`
— not suggested for `test.tiff` — still selects the
alternatives branch. -/
theorem c2_witness :
    (get_missing_plugins_message "test.tiff" (some [("bioio-ome-tiff", true)]) =
        get_missing_plugins_message "test.tiff" (some [("bioio-ome-tiff", false)])) ∧
      get_missing_plugins_message "test.tiff" (some [("bioio-czi", true)]) =
        installed_failed_message "test.tiff"
          (get_installed_plugins (some [("bioio-czi", true)]))
          (format_plugin_list (missing_plugins_of "test.tiff" (some [("bioio-czi", true)]))) :=
  ⟨c2_message_branches_on_installation_not_capability.1 "test.tiff"
      [("bioio-ome-tiff", true)] [("bioio-ome-tiff", false)] (by decide),
    (c2_message_branches_on_installation_not_capability.2.1 "test.tiff"
        (some [("bioio-czi", true)])).2.1
      (by decide) (by decide) (by decide) (by decide)⟩

/-- C2 counterexample: a report in which an installed plugin declares
the file *supported* (`capable` non-empty: `bioio-ome-tiff` with
`supported=True` for `test.tiff`) still produces the
missing-plugin/alternatives message with pip-install suggestions — not
the content/corruption framing the claim requires for that case. -/
theorem c2_counterexample :
    pyIn "Try one of these alternatives"
        (get_missing_plugins_message "test.tiff" (some [("bioio-ome-tiff", true)])) = true ∧
      pyIn "Install: pip install"
        (get_missing_plugins_message "test.tiff" (some [("bioio-ome-tiff", true)])) = true ∧
      pyIn "corrupt"
        (get_missing_plugins_message "test.tiff" (some [("bioio-ome-tiff", true)])) = false := by
  decide

/-- Helper: a list with some element on which `f` hits has a
`findSome?` hit. -/
theorem findSome?_some_of_exists {α β : Type} (f : α → Option β) (l : List α)
    (h : ∃ x ∈ l, (f x).isSome = true) : ∃ b, l.findSome? f = some b := by
  induction l with
  | nil =>
    obtain ⟨x, hx, _⟩ := h
    exact absurd hx (List.not_mem_nil x)
  | cons a t ih =>
    cases hfa : f a with
    | some b => exact ⟨b, by simp [List.findSome?, hfa]⟩
    | none =>
      obtain ⟨x, hx, hpx⟩ := h
      rcases List.mem_cons.mp hx with rfl | hxt
      · rw [hfa] at hpx
        simp at hpx
      · obtain ⟨b, hb⟩ := ih ⟨x, hxt, hpx⟩
        exact ⟨b, by simp [List.findSome?, hfa, hb]⟩

/-- C3: if the resolved (explicit or preferred) reader raises
unsupported-format for the file while some other installed reader can
open it, `nImage.__init__` returns an opened image: the forced attempt
falls back once to the ecosystem default, which succeeds. -/
theorem c3_fallback_recovers (ρ ι : Type) (installed : List ρ) (canOpen : ρ → Option ι)
    (explicit_reader preferred : Option ρ) (forced : ρ)
    (is_path suggest_setting : Bool) (msg : String)
    (hres : resolve_reader explicit_reader is_path preferred = some forced)
    (hforced : canOpen forced = none)
    (hother : ∃ r ∈ installed, (canOpen r).isSome = true) :
    ∃ img,
      nImage_init is_path suggest_setting msg
          (resolve_reader explicit_reader is_path preferred)
          (ecoOpen installed canOpen) = Except.ok img := by
  obtain ⟨b, hb⟩ := findSome?_some_of_exists canOpen installed hother
  refine ⟨b, ?_⟩
  rw [hres]
  simp [nImage_init, ecoOpen, hforced, hb]

/-- Witness for C3: explicit reader `0` cannot open the image, installed
reader `1` can. -/
theorem c3_witness :
    ∃ img,
      nImage_init true true "m"
          (resolve_reader (some 0) true (none : Option Nat))
          (ecoOpen [0, 1] (fun r => if r = 1 then some 42 else none)) = Except.ok img :=
  c3_fallback_recovers Nat Nat [0, 1] (fun r => if r = 1 then some 42 else none)
    (some 0) none 0 true true "m" rfl (by decide) ⟨1, by decide, by decide⟩

/-- C6: with a resolved preferred/explicit reader, an
unsupported-format failure (either the re-raised ecosystem error or the
`_raise_with_suggestions` replacement) escapes `nImage.__init__` only
when both the forced attempt and the no-reader fallback attempt raised
unsupported-format; and in that case the raised error is the enriched
one carrying the installation message exactly when the input was a path
and `suggest_reader_plugins` is on, while an array-like input re-raises
the ecosystem error with no enrichment. -/
theorem c6_final_failure_and_enrichment (ρ ι : Type)
    (openImage : Option ρ → Except EcoErr ι) (r : ρ)
    (is_path suggest_setting : Bool) (msg : String) :
    (∀ e : NErr,
        nImage_init is_path suggest_setting msg (some r) openImage = Except.error e →
        (e = NErr.eco EcoErr.unsupported ∨ ∃ m, e = NErr.enriched m) →
        openImage (some r) = Except.error EcoErr.unsupported ∧
          openImage none = Except.error EcoErr.unsupported) ∧
      (openImage (some r) = Except.error EcoErr.unsupported →
        openImage none = Except.error EcoErr.unsupported →
        nImage_init is_path suggest_setting msg (some r) openImage =
          Except.error
            (if is_path then
              NErr.enriched (if suggest_setting then some msg else none)
             else NErr.eco EcoErr.unsupported)) := by
  constructor
  · intro e he hkind
    cases h1 : openImage (some r) with
    | ok img => simp [nImage_init, h1] at he
    | error e1 =>
      cases e1 with
      | unsupported =>
        refine ⟨rfl, ?_⟩
        cases h2 : openImage none with
        | ok img => simp [nImage_init, h1, h2] at he
        | error e2 =>
          cases e2 with
          | unsupported => rfl
          | other =>
            simp [nImage_init, h1, h2] at he
            rcases hkind with hk | ⟨m, hk⟩ <;> rw [hk] at he <;> exact absurd he.symm (by simp)
      | other =>
        simp [nImage_init, h1] at he
        rcases hkind with hk | ⟨m, hk⟩ <;> rw [hk] at he <;> exact absurd he.symm (by simp)
  · intro h1 h2
    by_cases hp : is_path <;>
      simp [nImage_init, h1, h2, raise_with_suggestions, hp]

/-- Witness for C6: every attempt raises unsupported-format; for a path
input with suggestions enabled the enriched error with the message
escapes. -/
theorem c6_witness :
    nImage_init true true "install bioio-czi" (some 0)
        (fun (_ : Option Nat) => (Except.error EcoErr.unsupported : Except EcoErr Nat)) =
      Except.error (NErr.enriched (some "install bioio-czi")) := by
  have h :=
    (c6_final_failure_and_enrichment Nat Nat
        (fun _ => Except.error EcoErr.unsupported) 0 true true "install bioio-czi").2
      rfl rfl
  simpa using h

/-- C7: at the failing input — the scale / dimension-properties
accessors raising `KeyError` (as `bioio_ome_zarr` does for OME-Zarr
v0.1/v0.2 stores) or `TypeError` — `layer_scale` and `layer_units`
propagate the recognized parse failure instead of degrading to
defaults; only `AttributeError` degrades (to all-1.0 / all-`None`), even
though `bioio_plugins/_compatibility.py` documents that nImage falls
back to `scale=1.0` / `units=None` for exactly those `KeyError`
stores. -/
theorem c7_keyerror_propagates :
    layer_scale ["Z", "Y", "X"] (Except.error MetaErr.keyError) =
        Except.error MetaErr.keyError ∧
      layer_units ["Z", "Y", "X"] (Except.error MetaErr.keyError) =
        Except.error MetaErr.keyError ∧
      layer_scale ["Z", "Y", "X"] (Except.error MetaErr.typeError) =
        Except.error MetaErr.typeError ∧
      layer_scale ["Z", "Y", "X"] (Except.error MetaErr.attributeError) =
        Except.ok [1, 1, 1] ∧
      layer_units ["Z", "Y", "X"] (Except.error MetaErr.attributeError) =
        Except.ok [none, none, none] :=
  ⟨rfl, rfl, rfl, rfl, rfl⟩

/-- C5 counterexample: `sample.ome.tiff` does not return
`bioio-tifffile` (so the claimed two-plugin simple-suffix result fails),
and `stack.tiles.ome.tif` does not return `bioio-ome-tiled-tiff` (so the
claimed compound-owner result fails). -/
theorem c5_counterexample :
    "bioio-tifffile" ∉ (suggest_plugins_for_path "sample.ome.tiff").map PluginInfo.name ∧
      "bioio-ome-tiled-tiff" ∉
        (suggest_plugins_for_path "stack.tiles.ome.tif").map PluginInfo.name := by
  decide

/-- Helper: key structure of the metadata dict built by
`_build_single_layer_tuple` with no per-channel kwargs and `rgb=False`:
colormap/blending keys are present exactly for "image"-typed layers, no
`rgb` key appears, and the blending value is additive exactly for a
non-first channel among several. -/
theorem single_layer_meta_keys {δ : Type}
    (bln : Option String → String) (cmap : Nat → Nat → String) (d : δ)
    (layer_type : String) (scale : List ℚ) (axis_labels : List String)
    (units : List (Option String)) (cname : Option String) (i N : Nat) :
    hasKey (build_single_layer_tuple bln cmap d layer_type scale axis_labels units
        cname i N none false).2.1 "colormap" = (layer_type == "image") ∧
      hasKey (build_single_layer_tuple bln cmap d layer_type scale axis_labels units
        cname i N none false).2.1 "blending" = (layer_type == "image") ∧
      hasKey (build_single_layer_tuple bln cmap d layer_type scale axis_labels units
        cname i N none false).2.1 "rgb" = false ∧
      (layer_type = "image" →
        lookupKey (build_single_layer_tuple bln cmap d layer_type scale axis_labels units
            cname i N none false).2.1 "blending" =
          some (MetaVal.str
            (if i > 0 ∧ N > 1 then "additive" else "translucent_no_depth"))) := by
  by_cases ht : layer_type = "image" <;> cases hu : units.isEmpty <;>
    simp [build_single_layer_tuple, hasKey, lookupKey, List.find?, ht, hu, beq_iff_eq]

/-- C8: for a multichannel image with `N > 1` named channels and no
overrides, `_build_multichannel_tuples` produces exactly `N` layer
tuples, one per channel slice; each resolves its layer type through
`_resolve_layer_type` (which, absent overrides, is the keyword
auto-detection over {label, mask, segmentation, seg, roi}); colormap and
blending keys are present exactly on "image"-typed layers (this path
never sets RGB), with the first channel getting
`translucent_no_depth` blending and later channels `additive`. -/
theorem c8_multichannel_layer_tuples (δ : Type)
    (bln : Option String → String) (cmap : Nat → Nat → String)
    (channel_names : List String) (N : Nat) (sliceAt : Nat → δ)
    (scale : List ℚ) (axis_labels : List String) (units : List (Option String))
    (hN : 1 < N) :
    (build_multichannel_tuples bln cmap channel_names N sliceAt none none none
        scale axis_labels units).length = N ∧
      ∀ i, i < N →
        ∃ m,
          (build_multichannel_tuples bln cmap channel_names N sliceAt none none none
              scale axis_labels units)[i]? =
            some (sliceAt i, m,
              resolve_layer_type (channel_names.getD i ("channel_" ++ toString i))
                none none) ∧
            resolve_layer_type (channel_names.getD i ("channel_" ++ toString i))
                none none =
              infer_layer_type (channel_names.getD i ("channel_" ++ toString i)) ∧
            hasKey m "colormap" =
              (resolve_layer_type (channel_names.getD i ("channel_" ++ toString i))
                  none none == "image") ∧
            hasKey m "blending" =
              (resolve_layer_type (channel_names.getD i ("channel_" ++ toString i))
                  none none == "image") ∧
            hasKey m "rgb" = false ∧
            (resolve_layer_type (channel_names.getD i ("channel_" ++ toString i))
                none none = "image" →
              lookupKey m "blending" =
                some (MetaVal.str (if i > 0 then "additive" else "translucent_no_depth"))) := by
  constructor
  · simp [build_multichannel_tuples]
  · intro i hi
    have hmeta := single_layer_meta_keys bln cmap (sliceAt i)
      (resolve_layer_type (channel_names.getD i ("channel_" ++ toString i)) none none)
      scale axis_labels units
      (some (channel_names.getD i ("channel_" ++ toString i))) i N
    refine ⟨_, ?_, rfl, hmeta.1, hmeta.2.1, hmeta.2.2.1, ?_⟩
    · simp only [build_multichannel_tuples, List.getElem?_map, List.getElem?_range, hi,
        if_pos, Option.map_some]
      rfl
    · intro himg
      have := hmeta.2.2.2 himg
      rwa [if_congr (iff_of_eq (by simp [Nat.lt_of_succ_le, hN] : (i > 0 ∧ N > 1) = (i > 0)))
        rfl rfl] at this

/-- Witness for C8 at channel names ["membrane", "nuclei_mask"]: two
tuples; the second is "labels"-typed (keyword "mask") and carries no
colormap key. -/
theorem c8_witness :
    (build_multichannel_tuples (fun c => c.getD "") (fun _ _ => "gray")
        ["membrane", "nuclei_mask"] 2 (fun i => i) none none none
        [1, 1] ["Y", "X"] []).length = 2 ∧
      (∃ m,
        (build_multichannel_tuples (fun c => c.getD "") (fun _ _ => "gray")
            ["membrane", "nuclei_mask"] 2 (fun i => i) none none none
            [1, 1] ["Y", "X"] [])[1]? =
          some (1, m,
            resolve_layer_type (["membrane", "nuclei_mask"].getD 1 ("channel_" ++ toString 1))
              none none) ∧
          resolve_layer_type (["membrane", "nuclei_mask"].getD 1 ("channel_" ++ toString 1))
              none none =
            infer_layer_type (["membrane", "nuclei_mask"].getD 1 ("channel_" ++ toString 1)) ∧
          hasKey m "colormap" =
            (resolve_layer_type (["membrane", "nuclei_mask"].getD 1 ("channel_" ++ toString 1))
                none none == "image") ∧
          hasKey m "blending" =
            (resolve_layer_type (["membrane", "nuclei_mask"].getD 1 ("channel_" ++ toString 1))
                none none == "image") ∧
          hasKey m "rgb" = false ∧
          (resolve_layer_type (["membrane", "nuclei_mask"].getD 1 ("channel_" ++ toString 1))
              none none = "image" →
            lookupKey m "blending" =
              some (MetaVal.str (if 1 > 0 then "additive" else "translucent_no_depth")))) ∧
      resolve_layer_type "nuclei_mask" none none = "labels" ∧
      resolve_layer_type "membrane" none none = "image" :=
  ⟨(c8_multichannel_layer_tuples Nat (fun c => c.getD "") (fun _ _ => "gray")
      ["membrane", "nuclei_mask"] 2 (fun i => i) [1, 1] ["Y", "X"] []
      (by decide)).1,
   (c8_multichannel_layer_tuples Nat (fun c => c.getD "") (fun _ _ => "gray")
      ["membrane", "nuclei_mask"] 2 (fun i => i) [1, 1] ["Y", "X"] []
      (by decide)).2 1 (by decide),
   by decide, by decide⟩

/-- C9: `napari_get_reader` returns `None` exactly for a list input or
a single path whose extension no registered plugin suggests; a single
recognized path yields the reader closure (with scene flags defaulted
from settings). -/
theorem c9_napari_get_reader_none_iff (in_memory ofso oas : Option Bool)
    (scene_setting : String) :
    (∀ ps, napari_get_reader (PathArg.listOfPaths ps) in_memory ofso oas
        scene_setting = none) ∧
      (∀ p, napari_get_reader (PathArg.single p) in_memory ofso oas scene_setting = none ↔
        suggest_plugins_for_path p = []) ∧
      (∀ p, suggest_plugins_for_path p ≠ [] →
        napari_get_reader (PathArg.single p) in_memory ofso oas scene_setting =
          some ⟨in_memory,
            ofso.getD (scene_setting == "View First Scene Only"),
            oas.getD (scene_setting == "View All Scenes")⟩) := by
  refine ⟨fun ps => rfl, fun p => ?_, fun p hp => ?_⟩
  · by_cases h : (suggest_plugins_for_path p).isEmpty <;>
      simp_all [napari_get_reader, List.isEmpty_iff]
  · have h : (suggest_plugins_for_path p).isEmpty = false := by
      simpa [List.isEmpty_iff] using hp
    simp [napari_get_reader, h]

/-- Witness for C9: a recognized single path yields a reader closure; a
list of paths yields none. -/
theorem c9_witness :
    napari_get_reader (PathArg.single "img.czi") none none none "" =
        some ⟨none, false, false⟩ ∧
      napari_get_reader (PathArg.listOfPaths ["a.czi", "b.czi"]) none none none "" =
        none :=
  ⟨by
    have h := (c9_napari_get_reader_none_iff none none none "").2.2 "img.czi" (by decide)
    simpa using h,
   (c9_napari_get_reader_none_iff none none none "").1 ["a.czi", "b.czi"]⟩

/-- C10: a `ReaderPluginManager` constructed without a path degrades
every path-dependent operation to an empty result: empty feasibility
report, no installed plugins, no suggested plugins, empty installable
list, `get_reader` returns `None`, and the installation message is the
empty string — regardless of the surrounding ecosystem. -/
theorem c10_standalone_manager_degrades (ρ : Type)
    (pfr : String → FeasibilityReport)
    (grbn : String → Option ρ) (dp : String → List ρ → Option ρ)
    (preferred : Option String)
    (fmt : String → List PluginInfo → List String → Except String (List PluginInfo) → String) :
    ReaderPluginManager.feasibility_report ⟨none⟩ pfr = [] ∧
      ReaderPluginManager.installed_plugins ⟨none⟩ pfr = [] ∧
      ReaderPluginManager.suggested_plugins ⟨none⟩ = [] ∧
      ReaderPluginManager.installable_plugins ⟨none⟩ pfr = Except.ok [] ∧
      ReaderPluginManager.get_reader ⟨none⟩ pfr grbn dp preferred = none ∧
      ReaderPluginManager.get_installation_message ⟨none⟩ pfr fmt = "" :=
  ⟨rfl, rfl, rfl, rfl, rfl, rfl⟩

end Ndevio
